import Mathlib

/-!
Verification of the invoice-backend OAuth code/token lifecycle.

This file is a shallow embedding, in Lean 4, of the JavaScript code in
`src/routes/xero.js`, `src/middleware/auth.js` (exported through
`src/routes/auth.js`) and `src/services/tokenStore.js`.

Modelling conventions:
* JavaScript values that may be `undefined`/absent are `Option _`;
  JS truthiness of a string-valued expression is `jsTruthyStr`
  (`undefined` and `""` are falsy), of a number `jsTruthyInt`
  (`undefined` and `0` are falsy).
* The global `Map` used by the token store becomes an association list
  `List (String × TokenRecord)` with `mapGet`/`mapSet`/`mapDelete`
  mirroring `Map.get`/`Map.set`/`Map.delete`.
* The global `Set` of used authorization codes becomes a `List String`
  queried through `List.contains`.
* `Date.now()` becomes an explicit `now : Int` argument.
* Outcomes of external HTTP calls (the token-exchange POST, the tenant
  GET, the id-token decode) are inputs to the handler functions, so a
  handler is a pure function of its state, its request and the oracle
  describing what the network did.
-/

namespace InvoiceBackend

/-- JS truthiness of an optional string: `undefined` and `""` are falsy. -/
def jsTruthyStr : Option String → Bool
  | none => false
  | some s => !(s == "")

/-- JS truthiness of an optional integer: `undefined` and `0` are falsy. -/
def jsTruthyInt : Option Int → Bool
  | none => false
  | some i => !(i == 0)

/-- JS `a || b` on string-valued expressions: returns `a` when truthy, else `b`. -/
def jsOrStr (a b : Option String) : Option String :=
  if jsTruthyStr a then a else b

/-- Association-list model of a JS `Map` lookup (`Map.get`). -/
def mapGet {α : Type} : List (String × α) → String → Option α
  | [], _ => none
  | (k2, v) :: rest, k => if k2 = k then some v else mapGet rest k

/-- Association-list model of a JS `Map.set`: overwrite in place, else append. -/
def mapSet {α : Type} : List (String × α) → String → α → List (String × α)
  | [], k, v => [(k, v)]
  | (k2, v2) :: rest, k, v =>
      if k2 = k then (k, v) :: rest else (k2, v2) :: mapSet rest k v

/-- Association-list model of a JS `Map.delete`. -/
def mapDelete {α : Type} (m : List (String × α)) (k : String) : List (String × α) :=
  m.filter (fun e => !(e.1 == k))

/-! ## Token store (`src/services/tokenStore.js`)

The `tokens` argument accepted by `storeUserTokens` carries
`access_token`, `refresh_token`, `expires_in` (seconds) and `tenant_id`. -/

/-- Argument shape passed to `TokenStore.storeUserTokens`. -/
structure TokensIn where
  access_token : String
  refresh_token : Option String
  expires_in : Int
  tenant_id : Option String
deriving DecidableEq, Repr

/-- Record held in the in-memory token `Map` (`tokenStore.js` lines 9–15). -/
structure TokenRecord where
  access_token : String
  refresh_token : Option String
  expires_at : Int
  tenant_id : Option String
  stored_at : Int
deriving DecidableEq, Repr

/-- The in-memory token store: a JS `Map` from user id to record. -/
abbrev TokenMap := List (String × TokenRecord)

/-- `TokenStore.storeUserTokens` — always a full replace;
`expires_at = Date.now() + expires_in * 1000`, `stored_at = Date.now()`. -/
def storeUserTokens (m : TokenMap) (now : Int) (userId : String) (tokens : TokensIn) :
    TokenMap :=
  mapSet m userId
    { access_token := tokens.access_token
      refresh_token := tokens.refresh_token
      expires_at := now + tokens.expires_in * 1000
      tenant_id := tokens.tenant_id
      stored_at := now }

/-- `TokenStore.clearUserTokens` — unconditional delete. -/
def clearUserTokens (m : TokenMap) (userId : String) : TokenMap :=
  mapDelete m userId

/-- `TokenStore.getUserTokens` — returns the record and the (possibly
mutated) store: a missing entry yields `none`; an entry with
`Date.now() >= expires_at` is deleted (via `clearUserTokens`) and yields
`none`; otherwise the record is returned unchanged. -/
def getUserTokens (m : TokenMap) (now : Int) (userId : String) :
    Option TokenRecord × TokenMap :=
  match mapGet m userId with
  | none => (none, m)
  | some tokens =>
      if now ≥ tokens.expires_at then (none, clearUserTokens m userId)
      else (some tokens, m)

/-- A JavaScript value as returned by `hasValidTokens`: the expression
`tokens !== null && tokens.access_token` evaluates either to the boolean
`false` or to the string `tokens.access_token`. -/
inductive JsVal where
  | bool (b : Bool)
  | str (s : String)
deriving DecidableEq, Repr

/-- JS truthiness of a `JsVal`. -/
def jsValTruthy : JsVal → Bool
  | .bool b => b
  | .str s => !(s == "")

/-- `TokenStore.hasValidTokens` — evaluates
`tokens !== null && tokens.access_token`, threading the store through the
inner `getUserTokens` call (which may lazily evict). -/
def hasValidTokens (m : TokenMap) (now : Int) (userId : String) : JsVal × TokenMap :=
  match getUserTokens m now userId with
  | (none, m2) => (.bool false, m2)
  | (some tokens, m2) => (.str tokens.access_token, m2)

/-- `TokenStore.getAccessToken` — projection of `getUserTokens`. -/
def getAccessToken (m : TokenMap) (now : Int) (userId : String) :
    Option String × TokenMap :=
  match getUserTokens m now userId with
  | (none, m2) => (none, m2)
  | (some tokens, m2) => (some tokens.access_token, m2)

/-! ## `POST /xero/callback` (`src/routes/xero.js` lines 177–539)

The handler reads the shared used-code `Set`, the environment, and the
request body, and performs one token-exchange POST whose outcome (plus
the dependent id-token decode and tenant fetch) is given by an
`ExchangeOutcome` oracle value. -/

/-- Environment variables consumed by the xero routes. -/
structure CallbackEnv where
  client_id : Option String
  client_secret : Option String
  callback_url : Option String
  xero_tenant_id : Option String
deriving DecidableEq, Repr

/-- Identity claims decoded from the id token (`user_info`). -/
structure UserInfo where
  email : Option String
  sub : Option String
deriving DecidableEq, Repr

/-- One entry of the upstream `/connections` response. -/
structure Tenant where
  tenantId : String
deriving DecidableEq, Repr

/-- Data available after a successful token-exchange POST: the token
payload, the decoded `user_info` (absent when there was no id token or
its decode failed — both non-fatal in the source), and the tenant list
(empty when the tenant fetch failed — also non-fatal). -/
structure ExchangeSuccess where
  access_token : String
  refresh_token : Option String
  expires_in : Int
  user_info : Option UserInfo
  tenants : List Tenant
deriving DecidableEq, Repr

/-- Outcome of the token-exchange POST to the upstream token endpoint.
`httpError` is an axios error with `error.response` present
(`errorCode` models `error.response.data.error`, which may be absent);
`networkError` is an axios error with only `error.request`. -/
inductive ExchangeOutcome where
  | success (d : ExchangeSuccess)
  | httpError (status : Nat) (errorCode : Option String)
  | networkError
deriving DecidableEq, Repr

/-- Response taxonomy of the `POST /callback` handler. -/
inductive CbResponse where
  | missingCode         -- 400, "No authorization code provided"
  | codeAlreadyUsed     -- 400, "Authorization code has already been used"
  | malformedCode       -- 400, "Invalid authorization code format"
  | serverMisconfigured -- 500, missing environment variables
  | ok (userId : Option String)  -- 200, tokens returned to the frontend
  | xeroError (code : String)    -- 400, upstream error body with an `error` field
  | badRequest          -- 400, upstream HTTP 400 without an error field
  | unauthorized        -- 401, upstream HTTP 401 without an error field
  | serviceUnavailable  -- 503, network error
  | internalError       -- 500, fallthrough
deriving DecidableEq, Repr

/-- HTTP status sent with each `CbResponse`. -/
def cbStatus : CbResponse → Nat
  | .missingCode => 400
  | .codeAlreadyUsed => 400
  | .malformedCode => 400
  | .serverMisconfigured => 500
  | .ok _ => 200
  | .xeroError _ => 400
  | .badRequest => 400
  | .unauthorized => 401
  | .serviceUnavailable => 503
  | .internalError => 500

/-- Whether a response is the 200 success. -/
def isOkResp : CbResponse → Bool
  | .ok _ => true
  | _ => false

/-- Full observable outcome of one `POST /callback` request: the HTTP
response, whether the token-exchange POST was issued, and the resulting
used-code set and token store. -/
structure CallbackResult where
  response : CbResponse
  exchanged : Bool
  used : List String
  store : TokenMap
deriving DecidableEq, Repr

/-- The `tokensToStore` object built on a successful exchange
(lines 369–374): tenant id from the first tenant, else the
`XERO_TENANT_ID` environment variable. -/
def tokensToStoreOf (env : CallbackEnv) (d : ExchangeSuccess) : TokensIn :=
  { access_token := d.access_token
    refresh_token := d.refresh_token
    expires_in := d.expires_in
    tenant_id :=
      match d.tenants with
      | t :: _ => some t.tenantId
      | [] => env.xero_tenant_id }

/-- The `userId` echoed in a successful callback response
(lines 363–391): `email || sub` when `user_info` is present with a
truthy `email` or `sub`, else `null`. -/
def successUserId (d : ExchangeSuccess) : Option String :=
  match d.user_info with
  | some ui =>
      if jsTruthyStr ui.email || jsTruthyStr ui.sub then jsOrStr ui.email ui.sub
      else none
  | none => none

/-- The token-store writes of a successful callback (lines 376–387):
store under `email` when truthy, and under `sub` when truthy and
`sub !== email`. -/
def successStore (store : TokenMap) (now : Int) (env : CallbackEnv)
    (d : ExchangeSuccess) : TokenMap :=
  match d.user_info with
  | some ui =>
      if jsTruthyStr ui.email || jsTruthyStr ui.sub then
        let tokensToStore := tokensToStoreOf env d
        let storeA :=
          if jsTruthyStr ui.email then
            storeUserTokens store now (ui.email.getD "") tokensToStore
          else store
        if jsTruthyStr ui.sub && !(ui.sub == ui.email) then
          storeUserTokens storeA now (ui.sub.getD "") tokensToStore
        else storeA
      else store
  | none => store

/-- Lines 242–253: the three environment variables the exchange needs,
all truthy. -/
def envConfigured (env : CallbackEnv) : Bool :=
  jsTruthyStr env.client_id && jsTruthyStr env.client_secret
    && jsTruthyStr env.callback_url

/-- `usedCodes.delete(code)` in the catch handler, guarded by
`error.response?.data?.error !== 'invalid_grant'` (line 417). -/
def unmarkUnlessInvalidGrant (used : List String) (c : String)
    (errorCode : Option String) : List String :=
  if errorCode ≠ some "invalid_grant" then used.filter (fun x => decide (x ≠ c))
  else used

/-- Response mapping for an axios error carrying `error.response`
(lines 453–520): a truthy `data.error` yields a 400 with the translated
message, else HTTP 400/401 are passed through, else the final 500. -/
def httpErrorResponse (status : Nat) (errorCode : Option String) : CbResponse :=
  if jsTruthyStr errorCode then .xeroError (errorCode.getD "")
  else if status = 400 then .badRequest
  else if status = 401 then .unauthorized
  else .internalError

/-- The `POST /xero/callback` handler. Steps, in source order:
missing-code check (JS truthiness, so `""` is also "missing");
dedup check against `usedCodes`; `usedCodes.add(code)`;
length-`< 10` format check; environment check; the exchange POST.
On success, tokens are stored under `email` and, when different, under
`sub` (when `user_info` carries a truthy `email` or `sub`).
On failure, the catch handler deletes the code from `usedCodes` unless
`error.response?.data?.error === 'invalid_grant'`, then maps the error
to a response. -/
def postCallback (used : List String) (store : TokenMap) (now : Int)
    (env : CallbackEnv) (code : Option String) (exch : ExchangeOutcome) :
    CallbackResult :=
  match code with
  | none => ⟨.missingCode, false, used, store⟩
  | some c =>
    if c = "" then ⟨.missingCode, false, used, store⟩
    else if c ∈ used then ⟨.codeAlreadyUsed, false, used, store⟩
    else
      -- usedCodes.add(code), before any further check or network call
      let used1 := c :: used
      if c.length < 10 then ⟨.malformedCode, false, used1, store⟩
      else if !(envConfigured env) then
        ⟨.serverMisconfigured, false, used1, store⟩
      else
        match exch with
        | .success d =>
            ⟨.ok (successUserId d), true, used1, successStore store now env d⟩
        | .httpError status errorCode =>
            ⟨httpErrorResponse status errorCode, true,
              unmarkUnlessInvalidGrant used1 c errorCode, store⟩
        | .networkError =>
            ⟨.serviceUnavailable, true, used1.filter (fun x => decide (x ≠ c)), store⟩

/-- An exchange failure that makes the catch handler unmark the code:
any failure whose `error.response?.data?.error` is not `invalid_grant`
(in particular any network error). -/
def unmarkingFailure : ExchangeOutcome → Bool
  | .success _ => false
  | .httpError _ errorCode => !(errorCode == some "invalid_grant")
  | .networkError => true

/-! ## String containment (JS `String.prototype.includes`) -/

/-- `listStartsWith p l` — `p` is a prefix of `l`. -/
def listStartsWith : List Char → List Char → Bool
  | [], _ => true
  | _ :: _, [] => false
  | a :: as, b :: bs => a == b && listStartsWith as bs

/-- `listHasRun p l` — `p` occurs as a contiguous run inside `l`. -/
def listHasRun (p : List Char) : List Char → Bool
  | [] => p.isEmpty
  | c :: cs => listStartsWith p (c :: cs) || listHasRun p cs

/-- JS `s.includes(pat)`. -/
def strContains (s pat : String) : Bool :=
  listHasRun pat.toList s.toList

/-! ## Authenticated-request gate (`authenticateToken`,
`src/middleware/auth.js`, re-exported by `src/routes/auth.js`) -/

/-- Decoded JWT payload fields the gate inspects. -/
structure JwtPayload where
  iss : Option String
  aud : Option String
  exp : Option Int
  email : Option String
  sub : Option String
  xero_userid : Option String
deriving DecidableEq, Repr

/-- Lines 110–137: `payload.email || payload.sub || payload.xero_userid`
when `payload.iss && payload.iss.includes('xero')`, else
`payload.email || payload.sub`. -/
def deriveUserIdentifier (p : JwtPayload) : Option String :=
  if jsTruthyStr p.iss && strContains (p.iss.getD "") "xero" then
    jsOrStr p.email (jsOrStr p.sub p.xero_userid)
  else
    jsOrStr p.email p.sub

/-- The `req.user` object attached on success (lines 140–145): the raw
payload plus `email`, `id`, `sub` each defaulted to `userIdentifier`. -/
structure AuthedUser where
  payload : JwtPayload
  email : String
  id : String
  sub : String
deriving DecidableEq, Repr

/-- Result of `authenticateToken` for a request whose bearer token
decoded to a payload. -/
inductive AuthResult where
  | invalidFormat       -- 403, "Invalid token format"
  | tokenExpired        -- 403, "Token has expired"
  | missingIdentifier   -- 403, "... missing user identifier"
  | ok (u : AuthedUser) -- next()
deriving DecidableEq, Repr

/-- `authenticateToken` after `jwt.decode` produced a payload:
reject when `iss` or `aud` is falsy; reject `TokenExpired` when
`payload.exp` is truthy and `Date.now() >= payload.exp * 1000`;
derive the user identifier and reject when it is falsy; otherwise
attach `req.user` and continue. -/
def authenticateToken (p : JwtPayload) (now : Int) : AuthResult :=
  if !(jsTruthyStr p.iss && jsTruthyStr p.aud) then .invalidFormat
  else if jsTruthyInt p.exp && decide (now ≥ p.exp.getD 0 * 1000) then .tokenExpired
  else
    let userIdentifier := deriveUserIdentifier p
    if !(jsTruthyStr userIdentifier) then .missingIdentifier
    else
      let uid := userIdentifier.getD ""
      .ok { payload := p
            email := (jsOrStr p.email (some uid)).getD ""
            id := uid
            sub := (jsOrStr p.sub (some uid)).getD "" }

/-! ## `GET /xero/auth` (`src/routes/xero.js` lines 86–128)

`new URL(...).toString()` serializes `searchParams` in the
`application/x-www-form-urlencoded` format: bytes outside
`[A-Za-z0-9*\-._]` are percent-encoded, space becomes `+`. -/

/-- UTF-8 bytes of a character (as `Nat`s below 256). -/
def utf8Bytes (c : Char) : List Nat :=
  let n := c.toNat
  if n < 0x80 then [n]
  else if n < 0x800 then [0xC0 + n / 0x40, 0x80 + n % 0x40]
  else if n < 0x10000 then
    [0xE0 + n / 0x1000, 0x80 + (n / 0x40) % 0x40, 0x80 + n % 0x40]
  else
    [0xF0 + n / 0x40000, 0x80 + (n / 0x1000) % 0x40,
     0x80 + (n / 0x40) % 0x40, 0x80 + n % 0x40]

/-- Uppercase hex digit. -/
def hexDigitChar (n : Nat) : Char :=
  if n < 10 then Char.ofNat (48 + n) else Char.ofNat (55 + n)

/-- Bytes left verbatim by the urlencoded serializer. -/
def formUnreserved (b : Nat) : Bool :=
  (0x30 ≤ b && b ≤ 0x39) || (0x41 ≤ b && b ≤ 0x5A) || (0x61 ≤ b && b ≤ 0x7A)
  || (b == 0x2A) || (b == 0x2D) || (b == 0x2E) || (b == 0x5F)

/-- One byte under `application/x-www-form-urlencoded` serialization. -/
def formEncodeByte (b : Nat) : List Char :=
  if formUnreserved b then [Char.ofNat b]
  else if b = 0x20 then ['+']
  else ['%', hexDigitChar (b / 16), hexDigitChar (b % 16)]

/-- `URLSearchParams` value serialization of a string. -/
def formEncode (s : String) : String :=
  ⟨(s.toList.flatMap utf8Bytes).flatMap formEncodeByte⟩

/-- JS `s.substring(2, 15)` on an ASCII string. -/
def jsSubstring2to15 (s : String) : String :=
  ⟨(s.toList.drop 2).take 13⟩

/-- Line 99: `Math.random().toString(36).substring(2, 15) +
Math.random().toString(36).substring(2, 15)`, as a function of the two
`Math.random().toString(36)` draws. -/
def authState (r1 r2 : String) : String :=
  jsSubstring2to15 r1 ++ jsSubstring2to15 r2

/-- Environment read by `GET /auth`. -/
structure AuthUrlEnv where
  client_id : Option String
  callback_url : Option String
  scopes : Option String
deriving DecidableEq, Repr

/-- Default scope string of `GET /auth` (line 108). -/
def defaultAuthScopes : String :=
  "openid profile email offline_access accounting.transactions accounting.contacts accounting.attachments accounting.settings.read accounting.reports.read"

/-- Response of `GET /auth`. -/
inductive GetAuthResult where
  | misconfigured                       -- 500
  | ok (authUrl : String) (state : String)
deriving DecidableEq, Repr

/-- The serialized authorization URL, with `searchParams` appended in
source order: `response_type`, `client_id`, `redirect_uri`, `scope`,
`state`. -/
def buildAuthUrl (client_id callback_url scopes state : String) : String :=
  "https://login.xero.com/identity/connect/authorize?response_type=code&client_id="
    ++ formEncode client_id
    ++ "&redirect_uri=" ++ formEncode callback_url
    ++ "&scope=" ++ formEncode scopes
    ++ "&state=" ++ formEncode state

/-- The `GET /auth` handler, as a function of the environment and the
two random draws feeding the state token. -/
def getAuth (env : AuthUrlEnv) (r1 r2 : String) : GetAuthResult :=
  if !(jsTruthyStr env.client_id && jsTruthyStr env.callback_url) then
    .misconfigured
  else
    let state := authState r1 r2
    let scopes := (jsOrStr env.scopes (some defaultAuthScopes)).getD ""
    .ok (buildAuthUrl (env.client_id.getD "") (env.callback_url.getD "") scopes state)
       state

/-- The `state` field of a `GET /auth` response, when present. -/
def getAuthState : GetAuthResult → Option String
  | .misconfigured => none
  | .ok _ s => some s

/-- The `authUrl` field of a `GET /auth` response, when present. -/
def getAuthUrl : GetAuthResult → Option String
  | .misconfigured => none
  | .ok u _ => some u

/-! ## `POST /xero/store-tokens` (`src/routes/xero.js` lines 593–634) -/

/-- Request body of `POST /store-tokens`. -/
structure StoreTokensBody where
  userId : Option String
  access_token : Option String
  refresh_token : Option String
  expires_in : Option Int
  tenant_id : Option String
deriving DecidableEq, Repr

/-- Response of `POST /store-tokens`. -/
inductive StoreTokensResponse where
  | missingFields   -- 400, "userId and access_token are required"
  | success         -- 200
deriving DecidableEq, Repr

/-- The `POST /store-tokens` handler: requires truthy `userId` and
`access_token`; defaults `expires_in || 1800` and
`tenant_id || process.env.XERO_TENANT_ID`; stores via
`TokenStore.storeUserTokens`. -/
def storeTokensRoute (m : TokenMap) (now : Int) (envTenantId : Option String)
    (b : StoreTokensBody) : StoreTokensResponse × TokenMap :=
  if !(jsTruthyStr b.userId && jsTruthyStr b.access_token) then
    (.missingFields, m)
  else
    let tokensToStore : TokensIn :=
      { access_token := b.access_token.getD ""
        refresh_token := b.refresh_token
        expires_in := if jsTruthyInt b.expires_in then b.expires_in.getD 0 else 1800
        tenant_id := jsOrStr b.tenant_id envTenantId }
    (.success, storeUserTokens m now (b.userId.getD "") tokensToStore)

/-! ## Lemmas -/

theorem mapGet_mapSet_self {α : Type} (m : List (String × α)) (k : String) (v : α) :
    mapGet (mapSet m k v) k = some v := by
  induction m with
  | nil => simp [mapGet, mapSet]
  | cons hd tl ih =>
      obtain ⟨k2, v2⟩ := hd
      by_cases h : k2 = k
      · simp [mapGet, mapSet, h]
      · simp [mapGet, mapSet, h, ih]

theorem mapGet_mapDelete_self {α : Type} (m : List (String × α)) (k : String) :
    mapGet (mapDelete m k) k = none := by
  induction m with
  | nil => simp [mapGet, mapDelete]
  | cons hd tl ih =>
      obtain ⟨k2, v2⟩ := hd
      by_cases h : k2 = k
      · simpa [mapDelete, h] using ih
      · simpa [mapDelete, mapGet, h] using ih

/-! ### Helper lemmas about the callback handler -/

theorem not_mem_filter_ne (l : List String) (c : String) :
    c ∉ l.filter (fun x => decide (x ≠ c)) := by
  simp [List.mem_filter]

theorem not_mem_unmark (used : List String) (c : String) (ec : Option String)
    (h : ec ≠ some "invalid_grant") :
    c ∉ unmarkUnlessInvalidGrant used c ec := by
  unfold unmarkUnlessInvalidGrant
  rw [if_pos h]
  exact not_mem_filter_ne used c

theorem mem_unmark_invalid_grant (used : List String) (c : String)
    (h : c ∈ used) :
    c ∈ unmarkUnlessInvalidGrant used c (some "invalid_grant") := by
  unfold unmarkUnlessInvalidGrant
  simp [h]

theorem httpErrorResponse_not_ok (status : Nat) (ec : Option String) :
    isOkResp (httpErrorResponse status ec) = false := by
  unfold httpErrorResponse
  split
  · rfl
  · split
    · rfl
    · split <;> rfl

theorem httpErrorResponse_ne_already_used (status : Nat) (ec : Option String) :
    httpErrorResponse status ec ≠ .codeAlreadyUsed := by
  unfold httpErrorResponse
  split
  · simp
  · split
    · simp
    · split <;> simp

/-- A code already in the used set is rejected before any further step:
the response is `codeAlreadyUsed` (an HTTP 400), no exchange happens,
and neither the used set nor the token store changes. -/
theorem postCallback_dedup_hit (used : List String) (store : TokenMap)
    (now : Int) (env : CallbackEnv) (c : String) (exch : ExchangeOutcome)
    (hc : c ≠ "") (h : c ∈ used) :
    postCallback used store now env (some c) exch =
      ⟨.codeAlreadyUsed, false, used, store⟩ := by
  simp only [postCallback]
  rw [if_neg hc, if_pos h]

/-- Fresh malformed code: marked, then rejected without exchanging. -/
theorem postCallback_malformed_eq (used : List String) (store : TokenMap)
    (now : Int) (env : CallbackEnv) (c : String) (exch : ExchangeOutcome)
    (hc : c ≠ "") (hnew : c ∉ used) (hlen : c.length < 10) :
    postCallback used store now env (some c) exch =
      ⟨.malformedCode, false, c :: used, store⟩ := by
  simp only [postCallback]
  rw [if_neg hc, if_neg hnew, if_pos hlen]

/-- Fresh well-formed code, incomplete environment: marked, then 500. -/
theorem postCallback_misconfigured_eq (used : List String) (store : TokenMap)
    (now : Int) (env : CallbackEnv) (c : String) (exch : ExchangeOutcome)
    (hc : c ≠ "") (hnew : c ∉ used) (hlen : ¬ c.length < 10)
    (henv : envConfigured env = false) :
    postCallback used store now env (some c) exch =
      ⟨.serverMisconfigured, false, c :: used, store⟩ := by
  simp only [postCallback]
  rw [if_neg hc, if_neg hnew, if_neg hlen, if_pos (by simp [henv])]

/-- Fresh well-formed code, complete environment: the exchange runs and
the outcome is dispatched per `exch`. -/
theorem postCallback_exchange_eq (used : List String) (store : TokenMap)
    (now : Int) (env : CallbackEnv) (c : String) (exch : ExchangeOutcome)
    (hc : c ≠ "") (hnew : c ∉ used) (hlen : ¬ c.length < 10)
    (henv : envConfigured env = true) :
    postCallback used store now env (some c) exch =
      match exch with
      | .success d =>
          ⟨.ok (successUserId d), true, c :: used, successStore store now env d⟩
      | .httpError status errorCode =>
          ⟨httpErrorResponse status errorCode, true,
            unmarkUnlessInvalidGrant (c :: used) c errorCode, store⟩
      | .networkError =>
          ⟨.serviceUnavailable, true,
            (c :: used).filter (fun x => decide (x ≠ c)), store⟩ := by
  simp only [postCallback]
  rw [if_neg hc, if_neg hnew, if_neg hlen, if_neg (by simp [henv])]

/-- A successful callback leaves the code in the used set. -/
theorem postCallback_ok_marked (used : List String) (store : TokenMap)
    (now : Int) (env : CallbackEnv) (c : String) (exch : ExchangeOutcome)
    (h : isOkResp (postCallback used store now env (some c) exch).response = true) :
    c ∈ (postCallback used store now env (some c) exch).used := by
  by_cases hc : c = ""
  · simp only [postCallback] at h
    rw [if_pos hc] at h
    simp [isOkResp] at h
  · by_cases hused : c ∈ used
    · rw [postCallback_dedup_hit used store now env c exch hc hused] at h
      simp [isOkResp] at h
    · by_cases hlen : c.length < 10
      · rw [postCallback_malformed_eq used store now env c exch hc hused hlen] at h
        simp [isOkResp] at h
      · by_cases henv : envConfigured env = true
        · rw [postCallback_exchange_eq used store now env c exch hc hused hlen henv] at h ⊢
          cases exch with
          | success d => simp
          | httpError status errorCode =>
              rw [show (⟨httpErrorResponse status errorCode, true,
                    unmarkUnlessInvalidGrant (c :: used) c errorCode, store⟩ :
                  CallbackResult).response = httpErrorResponse status errorCode from rfl,
                httpErrorResponse_not_ok] at h
              exact absurd h (by simp)
          | networkError => simp [isOkResp] at h
        · rw [postCallback_misconfigured_eq used store now env c exch hc hused hlen
            (by simpa using henv)] at h
          simp [isOkResp] at h

/-- A fresh, well-formed code under a complete environment always
reaches the exchange step, so the dedup rejection cannot occur. -/
theorem postCallback_fresh_exchanges (used : List String) (store : TokenMap)
    (now : Int) (env : CallbackEnv) (c : String) (exch : ExchangeOutcome)
    (hc : c ≠ "") (hnew : c ∉ used) (hlen : ¬ c.length < 10)
    (henv : envConfigured env = true) :
    (postCallback used store now env (some c) exch).exchanged = true ∧
    (postCallback used store now env (some c) exch).response ≠ .codeAlreadyUsed := by
  rw [postCallback_exchange_eq used store now env c exch hc hnew hlen henv]
  cases exch with
  | success d => simp
  | httpError status errorCode =>
      exact ⟨rfl, httpErrorResponse_ne_already_used status errorCode⟩
  | networkError => simp

/-! ### Branch equations for the exchange outcomes -/

theorem postCallback_success_eq (used : List String) (store : TokenMap)
    (now : Int) (env : CallbackEnv) (c : String) (d : ExchangeSuccess)
    (hc : c ≠ "") (hnew : c ∉ used) (hlen : ¬ c.length < 10)
    (henv : envConfigured env = true) :
    postCallback used store now env (some c) (.success d) =
      ⟨.ok (successUserId d), true, c :: used, successStore store now env d⟩ := by
  rw [postCallback_exchange_eq used store now env c _ hc hnew hlen henv]

theorem postCallback_httpError_eq (used : List String) (store : TokenMap)
    (now : Int) (env : CallbackEnv) (c : String) (status : Nat)
    (errorCode : Option String)
    (hc : c ≠ "") (hnew : c ∉ used) (hlen : ¬ c.length < 10)
    (henv : envConfigured env = true) :
    postCallback used store now env (some c) (.httpError status errorCode) =
      ⟨httpErrorResponse status errorCode, true,
        unmarkUnlessInvalidGrant (c :: used) c errorCode, store⟩ := by
  rw [postCallback_exchange_eq used store now env c _ hc hnew hlen henv]

theorem postCallback_networkError_eq (used : List String) (store : TokenMap)
    (now : Int) (env : CallbackEnv) (c : String)
    (hc : c ≠ "") (hnew : c ∉ used) (hlen : ¬ c.length < 10)
    (henv : envConfigured env = true) :
    postCallback used store now env (some c) .networkError =
      ⟨.serviceUnavailable, true,
        (c :: used).filter (fun x => decide (x ≠ c)), store⟩ := by
  rw [postCallback_exchange_eq used store now env c _ hc hnew hlen henv]

theorem listStartsWith_append (p l m : List Char) (h : listStartsWith p l = true) :
    listStartsWith p (l ++ m) = true := by
  induction p generalizing l with
  | nil => simp [listStartsWith]
  | cons a as ih =>
      cases l with
      | nil => simp [listStartsWith] at h
      | cons b bs =>
          simp only [listStartsWith, Bool.and_eq_true] at h
          simpa [listStartsWith, h.1] using ih bs h.2

theorem listHasRun_nil (l : List Char) : listHasRun [] l = true := by
  cases l <;> simp [listHasRun, listStartsWith, List.isEmpty]

theorem listHasRun_append (p l m : List Char) (h : listHasRun p l = true) :
    listHasRun p (l ++ m) = true := by
  induction l with
  | nil =>
      simp only [listHasRun, List.isEmpty_iff] at h
      subst h
      simpa using listHasRun_nil m
  | cons c cs ih =>
      simp only [listHasRun, Bool.or_eq_true] at h ⊢
      rcases h with h | h
      · exact Or.inl (listStartsWith_append p (c :: cs) m h)
      · exact Or.inr (ih h)

theorem string_data_append (s t : String) : (s ++ t).data = s.data ++ t.data := by
  cases s; cases t; rfl

/-- Containment survives appending on the right (used for the
authorization URL, whose tail is the encoded random state). -/
theorem strContains_append_right (s t pat : String)
    (h : strContains s pat = true) : strContains (s ++ t) pat = true := by
  unfold strContains at h ⊢
  simp only [String.toList] at h ⊢
  rw [string_data_append]
  exact listHasRun_append pat.data s.data t.data h

/-! ### Helper lemmas for the gate and the auth URL -/

theorem jsTruthyStr_jsOrStr (a b : Option String) :
    jsTruthyStr (jsOrStr a b) = (jsTruthyStr a || jsTruthyStr b) := by
  by_cases h : jsTruthyStr a = true
  · simp [jsOrStr, h]
  · have h' : jsTruthyStr a = false := by simpa using h
    simp [jsOrStr, h']

theorem jsTruthyStr_some_ne (o : Option String) (h : jsTruthyStr o = true) :
    o = some (o.getD "") ∧ o.getD "" ≠ "" := by
  cases o with
  | none => simp [jsTruthyStr] at h
  | some s => exact ⟨rfl, by simpa [jsTruthyStr] using h⟩

/-- When the derived identifier is truthy, the two-way fallback of the
non-Xero branch agrees with the full `email || sub || xero_userid`
chain. -/
theorem deriveUserIdentifier_eq_or3 (p : JwtPayload)
    (h : jsTruthyStr (deriveUserIdentifier p) = true) :
    deriveUserIdentifier p = jsOrStr p.email (jsOrStr p.sub p.xero_userid) := by
  by_cases hx : (jsTruthyStr p.iss && strContains (p.iss.getD "") "xero") = true
  · simp [deriveUserIdentifier, hx]
  · have hx' : (jsTruthyStr p.iss && strContains (p.iss.getD "") "xero") = false := by
      simpa using hx
    have hder : deriveUserIdentifier p = jsOrStr p.email p.sub := by
      simp [deriveUserIdentifier, hx']
    rw [hder]
    by_cases he : jsTruthyStr p.email = true
    · simp [jsOrStr, he]
    · have he' : jsTruthyStr p.email = false := by simpa using he
      rw [hder, jsTruthyStr_jsOrStr, he'] at h
      simp only [Bool.false_or] at h
      simp [jsOrStr, he', h]

theorem str_length_append (s t : String) : (s ++ t).length = s.length + t.length := by
  show (s ++ t).data.length = s.data.length + t.data.length
  rw [string_data_append, List.length_append]

theorem jsSubstring2to15_length (s : String) (h : 15 ≤ s.length) :
    (jsSubstring2to15 s).length = 13 := by
  show ((s.data.drop 2).take 13).length = 13
  rw [List.length_take, List.length_drop]
  have hs : s.data.length = s.length := rfl
  omega

/-! ## Claim theorems -/

/-- C1 counterexample: The claim "two sequential `POST /callback`
calls with the same code succeed at most once and *the second always
yields CodeAlreadyUsed*" fails: when the first call's exchange fails
with a network error, the catch handler removes the code from the used
set, so the second call with the same code proceeds to the exchange and
can even succeed. Concretely, with a fresh 10-character code and a
complete environment, a first call whose exchange hits a network error
followed by a second call whose exchange succeeds yields a 200 success
— not `CodeAlreadyUsed` — on the second call. -/
theorem callback_second_call_can_succeed :
    (postCallback
        (postCallback [] [] 0
          ⟨some "cid12345", some "csecret1", some "https://app.test/callback", none⟩
          (some "abcdefghij") .networkError).used
        (postCallback [] [] 0
          ⟨some "cid12345", some "csecret1", some "https://app.test/callback", none⟩
          (some "abcdefghij") .networkError).store
        0 ⟨some "cid12345", some "csecret1", some "https://app.test/callback", none⟩
        (some "abcdefghij")
        (.success ⟨"atok", none, 1800, none, []⟩)).response =
      .ok none ∧
    CbResponse.ok none ≠ CbResponse.codeAlreadyUsed := by
  exact ⟨by decide, by decide⟩

/-- C1 amended: For every authorization code already present in
the used-code set, `POST /callback` returns HTTP 400 `CodeAlreadyUsed`,
performs no token-exchange call, and changes neither the used set nor
the token store. Consequently two sequential `POST /callback` calls
with the same code (both before a sweep tick) succeed at most once, and
the second yields `CodeAlreadyUsed` whenever the first left the code
marked used — which is always, except when the first call's exchange
failed with a non-`invalid_grant` upstream or network error (which
unmarks the code; see C2). -/
theorem callback_code_single_use (used : List String) (store : TokenMap)
    (now now2 : Int) (env : CallbackEnv) (c : String)
    (exch1 exch2 : ExchangeOutcome) (hc : c ≠ "") :
    (c ∈ used →
      postCallback used store now env (some c) exch1 =
        ⟨.codeAlreadyUsed, false, used, store⟩ ∧
      cbStatus (postCallback used store now env (some c) exch1).response = 400) ∧
    ¬(isOkResp (postCallback used store now env (some c) exch1).response = true ∧
      isOkResp (postCallback (postCallback used store now env (some c) exch1).used
          (postCallback used store now env (some c) exch1).store
          now2 env (some c) exch2).response = true) ∧
    (c ∈ (postCallback used store now env (some c) exch1).used →
      (postCallback (postCallback used store now env (some c) exch1).used
          (postCallback used store now env (some c) exch1).store
          now2 env (some c) exch2).response = .codeAlreadyUsed) := by
  have hthird : c ∈ (postCallback used store now env (some c) exch1).used →
      (postCallback (postCallback used store now env (some c) exch1).used
          (postCallback used store now env (some c) exch1).store
          now2 env (some c) exch2).response = .codeAlreadyUsed := by
    intro hm
    rw [postCallback_dedup_hit _ _ now2 env c exch2 hc hm]
  refine ⟨?_, ?_, hthird⟩
  · intro hm
    have he := postCallback_dedup_hit used store now env c exch1 hc hm
    exact ⟨he, by rw [he]; rfl⟩
  · rintro ⟨h1, h2⟩
    have hm := postCallback_ok_marked used store now env c exch1 h1
    rw [hthird hm] at h2
    simp [isOkResp] at h2

/-- C1 witness: concrete instantiation of the amended theorem at a
code already in the used set. -/
theorem callback_code_single_use_witness :
    postCallback ["abcdefghij"] [] 0
        ⟨some "cid12345", some "csecret1", some "https://app.test/callback", none⟩
        (some "abcdefghij") .networkError =
      ⟨.codeAlreadyUsed, false, ["abcdefghij"], []⟩ := by
  exact ((callback_code_single_use ["abcdefghij"] [] 0 0
      ⟨some "cid12345", some "csecret1", some "https://app.test/callback", none⟩
      "abcdefghij" .networkError .networkError (by decide)).1 (by simp)).1

/-- C2: For every `POST /callback` that reaches the exchange step
(fresh, well-formed code; complete environment) and fails: with the
upstream error `invalid_grant` the code stays in the used set, and a
resubmission of the same code yields `CodeAlreadyUsed`; with any other
upstream error (any `error.response.data.error ≠ 'invalid_grant'`,
including an absent error field) or a network failure, the code is
removed from the used set, so a resubmission is not rejected as
`CodeAlreadyUsed` and reaches the exchange step again. -/
theorem callback_unmark_policy (used : List String) (store : TokenMap)
    (now now2 : Int) (env : CallbackEnv) (c : String) (exch2 : ExchangeOutcome)
    (hc : c ≠ "") (hnew : c ∉ used) (hlen : ¬ c.length < 10)
    (henv : envConfigured env = true) :
    (∀ status : Nat,
      c ∈ (postCallback used store now env (some c)
            (.httpError status (some "invalid_grant"))).used ∧
      (postCallback
          (postCallback used store now env (some c)
            (.httpError status (some "invalid_grant"))).used
          (postCallback used store now env (some c)
            (.httpError status (some "invalid_grant"))).store
          now2 env (some c) exch2).response = .codeAlreadyUsed) ∧
    (∀ exch1, unmarkingFailure exch1 = true →
      c ∉ (postCallback used store now env (some c) exch1).used ∧
      (postCallback (postCallback used store now env (some c) exch1).used
          (postCallback used store now env (some c) exch1).store
          now2 env (some c) exch2).response ≠ .codeAlreadyUsed ∧
      (postCallback (postCallback used store now env (some c) exch1).used
          (postCallback used store now env (some c) exch1).store
          now2 env (some c) exch2).exchanged = true) := by
  constructor
  · intro status
    rw [postCallback_httpError_eq used store now env c status (some "invalid_grant")
      hc hnew hlen henv]
    have hmem : c ∈ unmarkUnlessInvalidGrant (c :: used) c (some "invalid_grant") :=
      mem_unmark_invalid_grant (c :: used) c (List.mem_cons_self c used)
    exact ⟨hmem, by rw [postCallback_dedup_hit _ _ now2 env c exch2 hc hmem]⟩
  · intro exch1 hf
    cases exch1 with
    | success d => simp [unmarkingFailure] at hf
    | httpError status ec =>
        have hne : ec ≠ some "invalid_grant" := by
          simpa [unmarkingFailure] using hf
        rw [postCallback_httpError_eq used store now env c status ec hc hnew hlen henv]
        have hnot : c ∉ unmarkUnlessInvalidGrant (c :: used) c ec :=
          not_mem_unmark (c :: used) c ec hne
        have hfr := postCallback_fresh_exchanges
          (unmarkUnlessInvalidGrant (c :: used) c ec) store now2 env c exch2
          hc hnot hlen henv
        exact ⟨hnot, hfr.2, hfr.1⟩
    | networkError =>
        rw [postCallback_networkError_eq used store now env c hc hnew hlen henv]
        have hnot : c ∉ (c :: used).filter (fun x => decide (x ≠ c)) :=
          not_mem_filter_ne (c :: used) c
        have hfr := postCallback_fresh_exchanges
          ((c :: used).filter (fun x => decide (x ≠ c))) store now2 env c exch2
          hc hnot hlen henv
        exact ⟨hnot, hfr.2, hfr.1⟩

/-- C2 witness: concrete instantiation — an `invalid_grant` failure
leaves the code marked and a resubmission is rejected; a network
failure unmarks it. -/
theorem callback_unmark_policy_witness :
    ("abcdefghij" ∈ (postCallback [] [] 0
        ⟨some "cid12345", some "csecret1", some "https://app.test/callback", none⟩
        (some "abcdefghij") (.httpError 400 (some "invalid_grant"))).used) ∧
    ("abcdefghij" ∉ (postCallback [] [] 0
        ⟨some "cid12345", some "csecret1", some "https://app.test/callback", none⟩
        (some "abcdefghij") .networkError).used) := by
  have h := callback_unmark_policy [] [] 0 0
    ⟨some "cid12345", some "csecret1", some "https://app.test/callback", none⟩
    "abcdefghij" .networkError (by decide) (by simp) (by decide) (by decide)
  exact ⟨(h.1 400).1, (h.2 .networkError (by decide)).1⟩

/-- C3: A fresh code shorter than 10 characters is marked used in
the dedup step, then rejected with HTTP 400 `MalformedCode` before any
exchange; the rejection does not unmark it, so the code remains in the
used-code set. -/
theorem callback_malformed_code_marked (used : List String) (store : TokenMap)
    (now : Int) (env : CallbackEnv) (c : String) (exch : ExchangeOutcome)
    (hc : c ≠ "") (hlen : c.length < 10) (hnew : c ∉ used) :
    postCallback used store now env (some c) exch =
      ⟨.malformedCode, false, c :: used, store⟩ ∧
    cbStatus (postCallback used store now env (some c) exch).response = 400 ∧
    c ∈ (postCallback used store now env (some c) exch).used := by
  have he := postCallback_malformed_eq used store now env c exch hc hnew hlen
  refine ⟨he, by rw [he]; rfl, ?_⟩
  rw [he]
  exact List.mem_cons_self c used

/-- C3 witness: the spec's own end-to-end scenario with code "short". -/
theorem callback_malformed_code_marked_witness :
    postCallback [] [] 0
        ⟨some "cid12345", some "csecret1", some "https://app.test/callback", none⟩
        (some "short") .networkError =
      ⟨.malformedCode, false, ["short"], []⟩ ∧
    "short" ∈ (postCallback [] [] 0
        ⟨some "cid12345", some "csecret1", some "https://app.test/callback", none⟩
        (some "short") .networkError).used := by
  have h := callback_malformed_code_marked [] [] 0
    ⟨some "cid12345", some "csecret1", some "https://app.test/callback", none⟩
    "short" .networkError (by decide) (by decide) (by simp)
  exact ⟨h.1, h.2.2⟩

/-- C4: `get(userId)` returns the stored record when one exists and
`now < expires_at`; when a record exists but `now >= expires_at` it
returns `none` and deletes the record (lazy eviction); when no record
exists it returns `none`; and it never returns an expired record. -/
theorem getUserTokens_expiry_spec (m : TokenMap) (now : Int) (userId : String) :
    (mapGet m userId = none → getUserTokens m now userId = (none, m)) ∧
    (∀ t, mapGet m userId = some t → now < t.expires_at →
      getUserTokens m now userId = (some t, m)) ∧
    (∀ t, mapGet m userId = some t → now ≥ t.expires_at →
      getUserTokens m now userId = (none, mapDelete m userId) ∧
      mapGet (getUserTokens m now userId).2 userId = none) ∧
    (∀ t, (getUserTokens m now userId).1 = some t → now < t.expires_at) := by
  refine ⟨?_, ?_, ?_, ?_⟩
  · intro h
    simp [getUserTokens, h]
  · intro t ht hlt
    simp [getUserTokens, ht, not_le.mpr hlt]
  · intro t ht hge
    constructor
    · simp [getUserTokens, ht, hge, clearUserTokens]
    · simp [getUserTokens, ht, hge, clearUserTokens, mapGet_mapDelete_self]
  · intro t h
    cases hm : mapGet m userId with
    | none => simp [getUserTokens, hm] at h
    | some t2 =>
        by_cases hge : now ≥ t2.expires_at
        · simp [getUserTokens, hm, hge] at h
        · simp [getUserTokens, hm, hge] at h
          rw [← h]
          exact not_le.mp hge

/-- C4 witness: a record with `expires_at = 100` is returned at
`now = 50` and evicted (map becomes empty) at `now = 150`. -/
theorem getUserTokens_expiry_spec_witness :
    getUserTokens [("u", ⟨"tok", none, 100, none, 0⟩)] 50 "u" =
      (some ⟨"tok", none, 100, none, 0⟩, [("u", ⟨"tok", none, 100, none, 0⟩)]) ∧
    getUserTokens [("u", ⟨"tok", none, 100, none, 0⟩)] 150 "u" = (none, []) := by
  constructor
  · exact (getUserTokens_expiry_spec [("u", ⟨"tok", none, 100, none, 0⟩)] 50 "u").2.1
      ⟨"tok", none, 100, none, 0⟩ (by decide) (by decide)
  · have h := ((getUserTokens_expiry_spec [("u", ⟨"tok", none, 100, none, 0⟩)] 150
      "u").2.2.1 ⟨"tok", none, 100, none, 0⟩ (by decide) (by decide)).1
    exact h.trans (by decide)

/-- C5 counterexample: The round-trip claim fails for
`expires_in = 0`: `store` at `now = 1000` sets `expires_at = 1000`, and
an immediate `get` (same `Date.now()`) hits `now >= expires_at`, so the
record is evicted and `null` is returned instead of a record carrying
`access_token = "tok-abc"`. -/
theorem store_get_roundtrip_cex :
    (getUserTokens (storeUserTokens [] 1000 "u" ⟨"tok-abc", none, 0, none⟩)
      1000 "u").1 = none := by decide

/-- C5 amended: For every `tokens` argument with a positive
`expires_in`, `store(userId, tokens)` followed immediately (same
timestamp) by `get(userId)` returns a record whose `access_token`
equals `tokens.access_token` exactly. -/
theorem store_get_roundtrip (m : TokenMap) (now : Int) (userId : String)
    (tokens : TokensIn) (hpos : 0 < tokens.expires_in) :
    ∃ r, (getUserTokens (storeUserTokens m now userId tokens) now userId).1 = some r ∧
      r.access_token = tokens.access_token := by
  refine ⟨⟨tokens.access_token, tokens.refresh_token, now + tokens.expires_in * 1000,
    tokens.tenant_id, now⟩, ?_, rfl⟩
  have hm := mapGet_mapSet_self m userId
    (⟨tokens.access_token, tokens.refresh_token, now + tokens.expires_in * 1000,
      tokens.tenant_id, now⟩ : TokenRecord)
  have hlt : ¬ now ≥ now + tokens.expires_in * 1000 := by
    have hp : (0 : Int) < tokens.expires_in * 1000 :=
      mul_pos hpos (by norm_num)
    omega
  simp [getUserTokens, storeUserTokens, hm, hlt]

/-- C5 witness: the amended round-trip at `expires_in = 1800`. -/
theorem store_get_roundtrip_witness :
    ∃ r, (getUserTokens (storeUserTokens [] 1000 "u" ⟨"tok-abc", none, 1800, none⟩)
        1000 "u").1 = some r ∧ r.access_token = "tok-abc" :=
  store_get_roundtrip [] 1000 "u" ⟨"tok-abc", none, 1800, none⟩ (by decide)

/-- C6 counterexample: `hasValid` does not return the boolean
`true` on a valid record: `tokens !== null && tokens.access_token`
evaluates to the access-token *string*. Here `get` returns a present
record with non-empty access token `"abcdef"`, yet `hasValid` returns
the string value `"abcdef"`, not `true` — so the result is not a
Boolean in both cases. -/
theorem hasValidTokens_not_boolean :
    (hasValidTokens (storeUserTokens [] 0 "u" ⟨"abcdef", none, 1800, none⟩)
        0 "u").1 = .str "abcdef" ∧
    (hasValidTokens (storeUserTokens [] 0 "u" ⟨"abcdef", none, 1800, none⟩)
        0 "u").1 ≠ .bool true ∧
    (getUserTokens (storeUserTokens [] 0 "u" ⟨"abcdef", none, 1800, none⟩)
        0 "u").1 = some ⟨"abcdef", none, 1800000, none, 0⟩ := by
  exact ⟨by decide, by decide, by decide⟩

/-- C6 amended: `hasValid(userId)` returns a *truthy* value iff
`get(userId)` returns a present record with a non-empty access token;
when there is no valid record it returns the boolean `false`, and when
there is one it returns the record's `access_token` string (truthy iff
non-empty), not a Boolean. -/
theorem hasValidTokens_truthiness (m : TokenMap) (now : Int) (userId : String) :
    (jsValTruthy (hasValidTokens m now userId).1 = true ↔
      ∃ t, (getUserTokens m now userId).1 = some t ∧ t.access_token ≠ "") ∧
    ((getUserTokens m now userId).1 = none →
      (hasValidTokens m now userId).1 = .bool false) ∧
    (∀ t, (getUserTokens m now userId).1 = some t →
      (hasValidTokens m now userId).1 = .str t.access_token) := by
  rcases hg : getUserTokens m now userId with ⟨r, m2⟩
  cases r with
  | none => simp [hasValidTokens, hg, jsValTruthy]
  | some t => simp [hasValidTokens, hg, jsValTruthy]

/-- C6 witness: on a freshly stored valid record the result is
truthy. -/
theorem hasValidTokens_truthiness_witness :
    jsValTruthy (hasValidTokens (storeUserTokens [] 0 "u" ⟨"tok1", none, 1800, none⟩)
      0 "u").1 = true := by
  exact (hasValidTokens_truthiness
      (storeUserTokens [] 0 "u" ⟨"tok1", none, 1800, none⟩) 0 "u").1.mpr
    ⟨⟨"tok1", none, 1800000, none, 0⟩, by decide, by decide⟩

/-! ### Claims about the authenticated-request gate -/

/-- C7 counterexample: The expiry check is a JS truthiness test
(`payload.exp && ...`), so a *present* `exp` equal to `0` skips it: a
payload with non-empty `iss`/`aud`, a derivable identifier, and
`exp = 0` is accepted at `now = 1700000000000` even though `exp` is
present and `now >= exp*1000` — the claim demands `TokenExpired`
here. -/
theorem authenticateToken_zero_exp_accepted :
    authenticateToken ⟨some "https://identity.xero.com", some "aud1", some 0,
        none, some "user-1", none⟩ 1700000000000 =
      .ok ⟨⟨some "https://identity.xero.com", some "aud1", some 0, none,
        some "user-1", none⟩, "user-1", "user-1", "user-1"⟩ ∧
    authenticateToken ⟨some "https://identity.xero.com", some "aud1", some 0,
        none, some "user-1", none⟩ 1700000000000 ≠ .tokenExpired ∧
    (1700000000000 : Int) ≥ 0 * 1000 := by
  exact ⟨by decide, by decide, by decide⟩

/-- C7 amended: For every payload with non-empty `iss` and `aud`:
if `exp` is present *and non-zero* and `now >= exp*1000`, the gate
rejects with `TokenExpired`; and whenever `now < exp*1000` and a user
identifier is derivable, the otherwise-identical token is accepted. -/
theorem authenticateToken_expiry :
    (∀ (p : JwtPayload) (now e : Int),
      jsTruthyStr p.iss = true → jsTruthyStr p.aud = true →
      p.exp = some e → e ≠ 0 → now ≥ e * 1000 →
      authenticateToken p now = .tokenExpired) ∧
    (∀ (p : JwtPayload) (now e : Int),
      jsTruthyStr p.iss = true → jsTruthyStr p.aud = true →
      p.exp = some e → now < e * 1000 →
      jsTruthyStr (deriveUserIdentifier p) = true →
      ∃ u, authenticateToken p now = .ok u) := by
  constructor
  · intro p now e hiss haud hexp hne hge
    have h1 : (!(jsTruthyStr p.iss && jsTruthyStr p.aud)) = false := by
      simp [hiss, haud]
    have h2 : (jsTruthyInt p.exp && decide (now ≥ p.exp.getD 0 * 1000)) = true := by
      rw [hexp]
      simp [jsTruthyInt, hne, hge]
    simp [authenticateToken, h1, h2]
  · intro p now e hiss haud hexp hlt hid
    have h1 : (!(jsTruthyStr p.iss && jsTruthyStr p.aud)) = false := by
      simp [hiss, haud]
    have h2 : (jsTruthyInt p.exp && decide (now ≥ p.exp.getD 0 * 1000)) = false := by
      rw [hexp]
      simp [not_le.mpr hlt]
    refine ⟨⟨p, (jsOrStr p.email (some ((deriveUserIdentifier p).getD ""))).getD "",
      (deriveUserIdentifier p).getD "",
      (jsOrStr p.sub (some ((deriveUserIdentifier p).getD ""))).getD ""⟩, ?_⟩
    simp [authenticateToken, h1, h2, hid]

/-- C7 witness: at `now = 1700000000000` ms the gate rejects a token
whose `exp` is one second in the past (`1699999999` s) and accepts the
otherwise-identical token with `exp` one hour in the future
(`1700003600` s). -/
theorem authenticateToken_expiry_witness :
    authenticateToken ⟨some "https://identity.xero.com", some "aud1",
        some 1699999999, none, some "user-1", none⟩ 1700000000000 = .tokenExpired ∧
    ∃ u, authenticateToken ⟨some "https://identity.xero.com", some "aud1",
        some 1700003600, none, some "user-1", none⟩ 1700000000000 = .ok u := by
  constructor
  · exact authenticateToken_expiry.1 _ 1700000000000 1699999999 (by decide) (by decide)
      rfl (by decide) (by decide)
  · exact authenticateToken_expiry.2 _ 1700000000000 1700003600 (by decide) (by decide)
      rfl (by decide) (by decide)

/-- C8: For every accepted token, the attached identifier equals
`email || sub || xero_userid` (first truthy value) and is non-empty
(non-null); and a token passing the format and expiry checks whose
`email`, `sub` and `xero_userid` are all falsy is rejected with the
missing-user-identifier error. -/
theorem authenticateToken_identifier (p : JwtPayload) (now : Int) :
    (∀ u, authenticateToken p now = .ok u →
      some u.id = jsOrStr p.email (jsOrStr p.sub p.xero_userid) ∧ u.id ≠ "") ∧
    (jsTruthyStr p.iss = true → jsTruthyStr p.aud = true →
      (jsTruthyInt p.exp && decide (now ≥ p.exp.getD 0 * 1000)) = false →
      jsTruthyStr p.email = false → jsTruthyStr p.sub = false →
      jsTruthyStr p.xero_userid = false →
      authenticateToken p now = .missingIdentifier) := by
  constructor
  · intro u hu
    by_cases h1 : (!(jsTruthyStr p.iss && jsTruthyStr p.aud)) = true
    · simp [authenticateToken, h1] at hu
    · have h1' : (!(jsTruthyStr p.iss && jsTruthyStr p.aud)) = false := by simpa using h1
      by_cases h2 : (jsTruthyInt p.exp && decide (now ≥ p.exp.getD 0 * 1000)) = true
      · simp [authenticateToken, h1', h2] at hu
      · have h2' : (jsTruthyInt p.exp && decide (now ≥ p.exp.getD 0 * 1000)) = false := by
          simpa using h2
        by_cases hid : jsTruthyStr (deriveUserIdentifier p) = true
        · have heq : authenticateToken p now =
              .ok ⟨p, (jsOrStr p.email (some ((deriveUserIdentifier p).getD ""))).getD "",
                (deriveUserIdentifier p).getD "",
                (jsOrStr p.sub (some ((deriveUserIdentifier p).getD ""))).getD ""⟩ := by
            simp [authenticateToken, h1', h2', hid]
          rw [heq] at hu
          obtain rfl : u = ⟨p,
              (jsOrStr p.email (some ((deriveUserIdentifier p).getD ""))).getD "",
              (deriveUserIdentifier p).getD "",
              (jsOrStr p.sub (some ((deriveUserIdentifier p).getD ""))).getD ""⟩ :=
            (AuthResult.ok.inj hu).symm
          constructor
          · rw [← deriveUserIdentifier_eq_or3 p hid]
            exact (jsTruthyStr_some_ne _ hid).1.symm
          · exact (jsTruthyStr_some_ne _ hid).2
        · have hid' : jsTruthyStr (deriveUserIdentifier p) = false := by simpa using hid
          simp [authenticateToken, h1', h2', hid'] at hu
  · intro hiss haud hexp he hs hx
    have h1 : (!(jsTruthyStr p.iss && jsTruthyStr p.aud)) = false := by
      simp [hiss, haud]
    have hid : jsTruthyStr (deriveUserIdentifier p) = false := by
      unfold deriveUserIdentifier
      split <;> simp [jsTruthyStr_jsOrStr, he, hs, hx]
    simp [authenticateToken, h1, hexp, hid]

/-- C8 witness: a Xero-issued payload passing format and expiry
checks with `email`, `sub` and `xero_userid` all absent is rejected
with the missing-user-identifier error. -/
theorem authenticateToken_identifier_witness :
    authenticateToken ⟨some "https://identity.xero.com", some "aud1", none, none,
      none, none⟩ 0 = .missingIdentifier :=
  (authenticateToken_identifier
      ⟨some "https://identity.xero.com", some "aud1", none, none, none, none⟩ 0).2
    (by decide) (by decide) (by decide) rfl rfl rfl

/-! ### Claims about `GET /auth` and `POST /store-tokens` -/

/-- C9 counterexample: The state token is
`Math.random().toString(36).substring(2,15)` twice concatenated; its
length is *not* always ≥ 20. `"0.i"` is a possible value of
`Math.random().toString(36)` — namely `(0.5).toString(36)` — and with
both draws equal to it the state is `"ii"`, of length 2. -/
theorem getAuth_state_can_be_short :
    getAuthState (getAuth ⟨some "abc123", some "https://app.test/callback", none⟩
        "0.i" "0.i") = some "ii" ∧
    ("ii".length < 20) := by
  exact ⟨by decide, by decide⟩

/-- C9 amended: With `CLIENT_ID=abc123` and
`CALLBACK_URL=https://app.test/callback` configured, every `GET /auth`
response carries an authorization URL containing `response_type=code`,
`client_id=abc123` and the URL-encoded
`redirect_uri=https%3A%2F%2Fapp.test%2Fcallback`, together with the
state built from the two random draws; the state has length ≥ 20 (in
fact 26) whenever both draws carry at least 13 fractional base-36
digits (i.e. have length ≥ 15), which is the typical case but not
guaranteed. -/
theorem getAuth_response_contents (r1 r2 : String) :
    ∃ url, getAuth ⟨some "abc123", some "https://app.test/callback", none⟩ r1 r2 =
        .ok url (authState r1 r2) ∧
      strContains url "response_type=code" = true ∧
      strContains url "client_id=abc123" = true ∧
      strContains url "redirect_uri=https%3A%2F%2Fapp.test%2Fcallback" = true ∧
      (15 ≤ r1.length → 15 ≤ r2.length → 20 ≤ (authState r1 r2).length) := by
  refine ⟨buildAuthUrl "abc123" "https://app.test/callback" defaultAuthScopes
    (authState r1 r2), rfl, ?_, ?_, ?_, ?_⟩
  · exact strContains_append_right _ _ _ (by decide)
  · exact strContains_append_right _ _ _ (by decide)
  · exact strContains_append_right _ _ _ (by decide)
  · intro h1 h2
    have : (authState r1 r2).length =
        (jsSubstring2to15 r1).length + (jsSubstring2to15 r2).length :=
      str_length_append _ _
    rw [this, jsSubstring2to15_length r1 h1, jsSubstring2to15_length r2 h2]
    omega

/-- C9 witness: with both draws of length 15 the state has
length 26 ≥ 20. -/
theorem getAuth_response_contents_witness :
    ∃ url, getAuth ⟨some "abc123", some "https://app.test/callback", none⟩
        "0.abcdefghijklm" "0.abcdefghijklm" =
        .ok url (authState "0.abcdefghijklm" "0.abcdefghijklm") ∧
      strContains url "response_type=code" = true ∧
      strContains url "client_id=abc123" = true ∧
      strContains url "redirect_uri=https%3A%2F%2Fapp.test%2Fcallback" = true ∧
      20 ≤ (authState "0.abcdefghijklm" "0.abcdefghijklm").length := by
  obtain ⟨url, h1, h2, h3, h4, h5⟩ :=
    getAuth_response_contents "0.abcdefghijklm" "0.abcdefghijklm"
  exact ⟨url, h1, h2, h3, h4, h5 (by decide) (by decide)⟩

/-- C10: A `POST /store-tokens` request with truthy `userId` and
`access_token` and absent `expires_in`/`tenant_id` succeeds, stores a
record with a 1800-second lifetime (`expires_at = now + 1800*1000`) and
the configured `XERO_TENANT_ID`, and a subsequent `get(userId)` at any
time within that lifetime returns the stored `access_token`. -/
theorem storeTokens_defaults (m : TokenMap) (now : Int) (envTenantId : Option String)
    (u a : String) (rt : Option String) (hu : u ≠ "") (ha : a ≠ "") :
    (storeTokensRoute m now envTenantId ⟨some u, some a, rt, none, none⟩).1 =
      .success ∧
    mapGet (storeTokensRoute m now envTenantId ⟨some u, some a, rt, none, none⟩).2 u =
      some ⟨a, rt, now + 1800 * 1000, envTenantId, now⟩ ∧
    (∀ now2 : Int, now2 < now + 1800 * 1000 →
      ∃ r, (getUserTokens (storeTokensRoute m now envTenantId
          ⟨some u, some a, rt, none, none⟩).2 now2 u).1 = some r ∧
        r.access_token = a) := by
  have hroute : storeTokensRoute m now envTenantId ⟨some u, some a, rt, none, none⟩ =
      (.success, storeUserTokens m now u ⟨a, rt, 1800, envTenantId⟩) := by
    have hcond : ¬ ((!(jsTruthyStr (some u) && jsTruthyStr (some a))) = true) := by
      simp [jsTruthyStr, hu, ha]
    rw [storeTokensRoute, if_neg hcond]
    rfl
  refine ⟨by rw [hroute], ?_, ?_⟩
  · rw [hroute]
    exact mapGet_mapSet_self m u _
  · intro now2 h2
    rw [hroute]
    refine ⟨⟨a, rt, now + 1800 * 1000, envTenantId, now⟩, ?_, rfl⟩
    have hm := mapGet_mapSet_self m u
      (⟨a, rt, now + 1800000, envTenantId, now⟩ : TokenRecord)
    have hlt : ¬ now2 ≥ now + 1800000 := by omega
    simp [getUserTokens, storeUserTokens, hm, hlt]

/-- C10 witness: storing with defaults and reading back 5 ms
later. -/
theorem storeTokens_defaults_witness :
    (storeTokensRoute [] 0 (some "tenant-X")
        ⟨some "user@example.com", some "tokA", none, none, none⟩).1 = .success ∧
    ∃ r, (getUserTokens (storeTokensRoute [] 0 (some "tenant-X")
        ⟨some "user@example.com", some "tokA", none, none, none⟩).2 5
        "user@example.com").1 = some r ∧ r.access_token = "tokA" := by
  have h := storeTokens_defaults [] 0 (some "tenant-X") "user@example.com" "tokA"
    none (by decide) (by decide)
  exact ⟨h.1, h.2.2 5 (by decide)⟩

end InvoiceBackend
